import Mathlib

/-!
Shallow embedding of `make_docker_images.py` (ATNF/all_yandasoft): a script
that assembles Docker recipe texts, build commands and SLURM batch files for
the Yandasoft stack.  Python strings are modelled as Lean `String` (character
lists), Python exceptions as an explicit `Except` error channel, and the one
dynamically-typed argument position (values that may fail an `isinstance` /
`type(...)` check) as the small sum type `PyVal`.
-/

set_option maxRecDepth 20000

deriving instance DecidableEq for Except

/-- Python exception kinds raised by the script, with their messages. -/
inductive PyErr where
  | valueError (msg : String)
  | typeError (msg : String)
  | nameError (msg : String)
deriving DecidableEq, Repr

/-- A Python value at the argument positions where the script performs a
runtime type check: a string, `None`, or any other non-string value. -/
inductive PyVal where
  | vstr (s : String)
  | vnone
  | vother
deriving DecidableEq, Repr

/-- `forbidden_chars_string` from the source: `"?!@#$%^&* ;<>?|\"\a\b\f\n\r\t\v"`
(Python `\a` = BEL `\x07`, `\b` = BS `\x08`, `\f` = FF `\x0C`, `\v` = VT `\x0B`). -/
def forbidden_chars_string : String := "?!@#$%^&* ;<>?|\"\x07\x08\x0C\n\r\t\x0B"

/-- `forbidden_chars = list(forbidden_chars_string)`. -/
def forbidden_chars : List Char := forbidden_chars_string.data

/-- `is_proper_name(name)`: `TypeError` if the argument is not a string,
`ok false` if it is empty or contains a forbidden character
(`name.find(c) >= 0` is modelled as membership of `c` in the character list),
`ok true` otherwise. -/
def is_proper_name : PyVal → Except PyErr Bool
  | PyVal.vstr name =>
      if name = "" then Except.ok false
      else if forbidden_chars.any (fun c => name.data.contains c) then Except.ok false
      else Except.ok true
  | _ => Except.error (PyErr.typeError "Name is not string")

/-- The mutable `DockerClass` object: Dockerfile name, image name, recipe text,
all initialised to `""` by the class attributes. -/
structure DockerClass where
  recipe_name : String
  image_name : String
  recipe : String
deriving DecidableEq, Repr

/-- `DockerClass.set_recipe_name`: validates via `is_proper_name` (which raises
`TypeError` on a non-string) and assigns on success; the second component is
the post-state of the object, unchanged on any raise. -/
def DockerClass.set_recipe_name (d : DockerClass) (v : PyVal) :
    Except PyErr Unit × DockerClass :=
  match v with
  | PyVal.vstr s =>
      if s = "" ∨ forbidden_chars.any (fun c => s.data.contains c) then
        (Except.error (PyErr.valueError "Illegal recipe_name:"), d)
      else
        (Except.ok (), { d with recipe_name := s })
  | _ => (Except.error (PyErr.typeError "Name is not string"), d)

/-- `DockerClass.set_image_name`: same validation as `set_recipe_name`. -/
def DockerClass.set_image_name (d : DockerClass) (v : PyVal) :
    Except PyErr Unit × DockerClass :=
  match v with
  | PyVal.vstr s =>
      if s = "" ∨ forbidden_chars.any (fun c => s.data.contains c) then
        (Except.error (PyErr.valueError "Illegal image_name:"), d)
      else
        (Except.ok (), { d with image_name := s })
  | _ => (Except.error (PyErr.typeError "Name is not string"), d)

/-- `DockerClass.set_recipe`: `TypeError` on a non-string, `ValueError` on the
empty string, otherwise assigns the recipe text (no forbidden-character
check in the source). -/
def DockerClass.set_recipe (d : DockerClass) (v : PyVal) :
    Except PyErr Unit × DockerClass :=
  match v with
  | PyVal.vstr s =>
      if s = "" then (Except.error (PyErr.valueError "Recipe is empty string"), d)
      else (Except.ok (), { d with recipe := s })
  | _ => (Except.error (PyErr.typeError "Recipe is not string"), d)

/-- `DockerClass.write_recipe`: raises if the file name or the recipe text is
unset; otherwise the file write is modelled as the produced
(file name, content) pair. -/
def DockerClass.write_recipe (d : DockerClass) : Except PyErr (String × String) :=
  if d.recipe_name = "" then
    Except.error (PyErr.valueError "Docker recipe file name has not been set")
  else if d.recipe = "" then
    Except.error (PyErr.valueError "Docker recipe content has not been set")
  else
    Except.ok (d.recipe_name, d.recipe)

/-- `DockerClass.get_build_command`: raises if the file name or the image name
is unset; otherwise returns the exact docker invocation string. -/
def DockerClass.get_build_command (d : DockerClass) : Except PyErr String :=
  if d.recipe_name = "" then
    Except.error (PyErr.valueError "Docker recipe file name has not been set")
  else if d.image_name = "" then
    Except.error (PyErr.valueError "Docker image file name has not been set")
  else
    Except.ok ("docker build --no-cache --pull -t " ++ d.image_name ++ " -f " ++
      d.recipe_name ++ " .")

/-- Decimal digit character, as produced by Python `str(int)` for one digit. -/
def digitChar : Nat → Char
  | 0 => '0' | 1 => '1' | 2 => '2' | 3 => '3' | 4 => '4'
  | 5 => '5' | 6 => '6' | 7 => '7' | 8 => '8' | _ => '9'

/-- Fuel-driven decimal printer: digits of `n`, most significant first.
With fuel `> n` this is exactly Python `str(n)` for a non-negative int. -/
def natDigitsAux : Nat → Nat → List Char
  | 0, _ => []
  | fuel + 1, n =>
      if n < 10 then [digitChar n]
      else natDigitsAux fuel (n / 10) ++ [digitChar (n % 10)]

/-- The decimal digit list of `n` (Python `str(n)` as characters). -/
def natDigits (n : Nat) : List Char := natDigitsAux (n + 1) n

/-- Python `str(n)` for a non-negative int `n`. -/
def pyStr (n : Nat) : String := String.mk (natDigits n)

/-- Python `int(s)` on a string of decimal digits. -/
def digitsVal (l : List Char) : Nat :=
  l.foldl (fun a c => 10 * a + (c.toNat - 48)) 0

/-- Scanner for `re.findall(r'\d+', s)`: accumulates the current digit run
(in reverse) and emits it when a non-digit or the end of input is reached. -/
def digitRunsAux : List Char → List Char → List (List Char)
  | [], acc => if acc.isEmpty then [] else [acc.reverse]
  | c :: cs, acc =>
      if c.isDigit then digitRunsAux cs (c :: acc)
      else if acc.isEmpty then digitRunsAux cs []
      else acc.reverse :: digitRunsAux cs []

/-- `re.findall(r'\d+', s)`: the maximal digit runs of `s`, in order. -/
def digitRuns (l : List Char) : List (List Char) := digitRunsAux l []

/-- `split_version_number(input_ver)`: the digit runs of the input, converted
to integers if there are exactly three of them, else the empty list. -/
def split_version_number (input_ver : String) : List Nat :=
  let string_list := digitRuns input_ver.data
  if string_list.length = 3 then string_list.map digitsVal else []

/-- `compose_version_number(int_list)`: the dot-joined string for exactly
three integers; the empty string for any other list and for a non-list
argument (in the script the non-list actually passed is `None`, hence the
`Option`: `none` fails the `isinstance(int_list, list)` check). -/
def compose_version_number : Option (List Nat) → String
  | some [a, b, c] => pyStr a ++ "." ++ pyStr b ++ "." ++ pyStr c
  | some _ => ""
  | none => ""

/-- `get_mpi_type_and_version(mpi_name)`: length-bucketed parse of an MPI
library specifier into (family, optional version triple).  Python string
length and slicing (`mpi_name[0:5]`, `mpi_name[6:]`, ...) are character
based, modelled on `String.data`. -/
def get_mpi_type_and_version (mpi_name : String) :
    Except PyErr (String × Option (List Nat)) :=
  if mpi_name.length < 5 then
    Except.error (PyErr.valueError "MPI name is too short:")
  else if mpi_name.length = 5 then
    if mpi_name = "mpich" then Except.ok ("mpich", none)
    else Except.error (PyErr.valueError "Expecting mpich:")
  else if mpi_name.length = 6 then
    Except.error (PyErr.valueError "Illegal MPI name:")
  else if mpi_name.length = 7 then
    if mpi_name = "openmpi" then Except.ok ("openmpi", none)
    else Except.error (PyErr.valueError "Expecting openmpi:")
  else
    if mpi_name.data.take 5 = "mpich".data then
      let int_ver := split_version_number (String.mk (mpi_name.data.drop 6))
      if int_ver.length = 3 then Except.ok ("mpich", some int_ver)
      else Except.error (PyErr.valueError "Illegal mpich version:")
    else if mpi_name.data.take 7 = "openmpi".data then
      let int_ver := split_version_number (String.mk (mpi_name.data.drop 8))
      if int_ver.length = 3 then Except.ok ("openmpi", some int_ver)
      else Except.error (PyErr.valueError "Illegal openmpi version:")
    else Except.error (PyErr.valueError "Illegal MPI name:")

/-- `cmake_cxx_compiler` from the source settings. -/
def cmake_cxx_compiler : String := "-DCMAKE_CXX_COMPILER=mpicxx"

/-- `MPI_COMPILE_FLAGS` from the source settings. -/
def MPI_COMPILE_FLAGS : String := "-I/usr/local/include -pthread"

/-- Modelled from the spec: the worker count is an environment input,
`os.cpu_count() - 1` floored at `1`; it is fixed here to the one-core host
value `1`.  It only appears as the decimal argument of `make -j` inside
recipe texts and no verified property depends on its value. -/
def nproc : Nat := 1

/-- Modelled from the spec: Python `__file__`, the path under which the
script was invoked; it only appears inside generated-file header comments
and no verified property depends on its value. -/
def dunder_file : String := "make_docker_images.py"

/-- `make_big_yandasoft_recipe(base_image, image, git_branch)`: the full
build recipe text; raises on an image flavor other than `yandasoft` /
`askapsoft`; the `develop` / `master` branch selector takes the plain
checkout sequence, any other selector takes the release-version workaround
with the extra `release/<tag>` checkout line. -/
def make_big_yandasoft_recipe (base_image image git_branch : String) :
    Except PyErr String :=
  let cmake_cxx_flags := "-DCMAKE_CXX_FLAGS=\"" ++ MPI_COMPILE_FLAGS ++
      "\" -DCMAKE_BUILD_TYPE=Release -DENABLE_OPENMP=YES"
  match (if image = "yandasoft" then
           some "-DBUILD_ANALYSIS=OFF -DBUILD_PIPELINE=OFF -DBUILD_COMPONENTS=OFF -DBUILD_SERVICES=OFF"
         else if image = "askapsoft" then
           some "-DBUILD_ANALYSIS=ON -DBUILD_PIPELINE=ON -DBUILD_COMPONENTS=ON -DBUILD_SERVICES=OFF"
         else none) with
  | none => Except.error (PyErr.valueError "Illegal image name:")
  | some cmake_build_flags =>
    if git_branch = "develop" ∨ git_branch = "master" then
      Except.ok (
        "# Build Yandasoft\n" ++
        "FROM " ++ base_image ++ " AS build_image \n" ++
        "WORKDIR /home\n" ++
        "RUN git clone https://gitlab.com/ASKAPSDP/all_yandasoft.git\n" ++
        "WORKDIR /home/all_yandasoft\n" ++
        "RUN ./git-do clone\n" ++
        "RUN ./git-do checkout -b " ++ git_branch ++ "\n" ++
        "# To fix version problem, use develop branch in askap-cmake \n" ++
        "WORKDIR /home/all_yandasoft/askap-cmake \n" ++
        "RUN git checkout develop \n" ++
        "WORKDIR /home/all_yandasoft \n" ++
        "RUN mkdir build\n" ++
        "WORKDIR /home/all_yandasoft/build\n" ++
        "RUN cmake " ++ cmake_cxx_compiler ++ " " ++ cmake_cxx_flags ++ " " ++
          cmake_build_flags ++ " .. \\\n" ++
        "    && make -j" ++ pyStr nproc ++ " \\\n" ++
        "    && make install\n")
    else
      Except.ok (
        "# Build Yandasoft\n" ++
        "FROM " ++ base_image ++ " AS build_image \n" ++
        "WORKDIR /home\n" ++
        "RUN git clone https://gitlab.com/ASKAPSDP/all_yandasoft.git\n" ++
        "WORKDIR /home/all_yandasoft\n" ++
        "RUN ./git-do clone\n" ++
        "# Workaround for versioning\n" ++
        "RUN ./git-do checkout -b release/" ++ git_branch ++ "\n" ++
        "RUN ./git-do checkout -b " ++ git_branch ++ "\n" ++
        "# To fix version problem, use develop branch in askap-cmake \n" ++
        "WORKDIR /home/all_yandasoft/askap-cmake \n" ++
        "RUN git checkout develop \n" ++
        "WORKDIR /home/all_yandasoft \n" ++
        "RUN mkdir build\n" ++
        "WORKDIR /home/all_yandasoft/build\n" ++
        "RUN cmake " ++ cmake_cxx_compiler ++ " " ++ cmake_cxx_flags ++ " " ++
          cmake_build_flags ++ " .. \\\n" ++
        "    && make -j" ++ pyStr nproc ++ " \\\n" ++
        "    && make install\n")

/-- The `batch_common_part` string of `make_batch_file`. -/
def batch_common_part : String :=
  "#!/bin/bash -l\n" ++
  "## This file is automatically created by " ++ dunder_file ++ "\n" ++
  "#SBATCH --ntasks=5\n" ++
  "##SBATCH --ntasks=305\n" ++
  "#SBATCH --time=02:00:00\n" ++
  "#SBATCH --job-name=cimager\n" ++
  "#SBATCH --export=NONE\n\n" ++
  "module load singularity/3.5.0\n"

/-- `make_batch_file(machine, mpi)`: resolves the MPI family and version,
builds the family-specific `batch_mpi_part`, and writes the batch file
(modelled as the produced (file name, content) pair).  The local variable
`batch_mpi_part` is modelled as an `Option`: it stays `none` when no
assignment runs, in which case the final use raises a `NameError`.  In the
`openmpi` branch the source compares the *string* `mpi_ver` against `None`,
modelled as comparing `PyVal.vstr mpi_ver` with `PyVal.vnone`. -/
def make_batch_file (machine mpi : String) : Except PyErr (String × String) :=
  match get_mpi_type_and_version mpi with
  | Except.error e => Except.error e
  | Except.ok (mpi_type, mpi_num) =>
    let mpi_ver := compose_version_number mpi_num
    let batch_mpi_part : Option String :=
      if mpi_type = "mpich" then
        some ("module load " ++ "mpich/3.3.0" ++ "\n\n" ++
          "mpirun -n 5 singularity exec " ++ "yandasoft-mpich_latest.sif" ++
          " cimager -c dirty.in > dirty_$\x7bSLURM_JOB_ID\x7d.log\n")
      else if mpi_type = "openmpi" then
        if PyVal.vstr mpi_ver ≠ PyVal.vnone then
          some ("module load " ++ ("openmpi/" ++ mpi_ver ++ "-ofed45-gcc") ++ "\n\n" ++
            "mpirun -n 5 -oversubscribe singularity exec " ++
            ("yandasoft-" ++ mpi_ver ++ "_latest.sif") ++
            " cimager -c dirty.in > dirty_$\x7bSLURM_JOB_ID\x7d.log\n")
        else none
      else none
    if mpi_type = "mpich" ∨ mpi_type = "openmpi" then
      match batch_mpi_part with
      | some part =>
          Except.ok ("sample-" ++ machine ++ "-" ++ mpi ++ ".sbatch",
            batch_common_part ++ part)
      | none => Except.error (PyErr.nameError "batch_mpi_part")
    else Except.error (PyErr.valueError "Unknown MPI target:")

/-- Number of (possibly overlapping) occurrences of `pat` as a contiguous
sublist of `l`. -/
def countOccs (pat : List Char) : List Char → Nat
  | [] => if pat.isPrefixOf ([] : List Char) then 1 else 0
  | c :: t => (if pat.isPrefixOf (c :: t) then 1 else 0) + countOccs pat t

/-- The computation raised a Python `ValueError`. -/
def raisesValueError {α : Type} (r : Except PyErr α) : Prop :=
  ∃ m, r = Except.error (PyErr.valueError m)

/-- The spec's "well-formed three-part dotted version string": the canonical
decimal prints of three non-negative integers joined by dots. -/
def wellFormedVersion (s : String) : Prop :=
  ∃ a b c : Nat, s = pyStr a ++ "." ++ pyStr b ++ "." ++ pyStr c

theorem digitChar_isDigit (d : Nat) (h : d < 10) : (digitChar d).isDigit = true := by
  interval_cases d <;> decide

theorem digitChar_toNat (d : Nat) (h : d < 10) : (digitChar d).toNat = 48 + d := by
  interval_cases d <;> decide

theorem digitsVal_append_digit (l : List Char) (c : Char) :
    digitsVal (l ++ [c]) = 10 * digitsVal l + (c.toNat - 48) := by
  unfold digitsVal
  rw [List.foldl_append]
  rfl

theorem natDigitsAux_spec (fuel : Nat) : ∀ n, n < fuel →
    natDigitsAux fuel n ≠ [] ∧ (∀ c ∈ natDigitsAux fuel n, c.isDigit = true) ∧
    digitsVal (natDigitsAux fuel n) = n := by
  induction fuel with
  | zero => intro n h; omega
  | succ fuel ih =>
    intro n h
    by_cases h10 : n < 10
    · simp only [natDigitsAux, if_pos h10]
      refine ⟨by simp, ?_, ?_⟩
      · intro c hc
        simp only [List.mem_singleton] at hc
        subst hc
        exact digitChar_isDigit n h10
      · simp only [digitsVal, List.foldl]
        rw [digitChar_toNat n h10]
        omega
    · simp only [natDigitsAux, if_neg h10]
      have hdiv : n / 10 < fuel := by
        have : n / 10 < n := Nat.div_lt_self (by omega) (by omega)
        omega
      obtain ⟨hne, hdig, hval⟩ := ih (n / 10) hdiv
      have hmod : n % 10 < 10 := Nat.mod_lt _ (by omega)
      refine ⟨by simp, ?_, ?_⟩
      · intro c hc
        rcases List.mem_append.mp hc with h1 | h1
        · exact hdig c h1
        · simp only [List.mem_singleton] at h1
          subst h1
          exact digitChar_isDigit _ hmod
      · rw [digitsVal_append_digit, hval, digitChar_toNat _ hmod]
        omega

theorem natDigits_ne_nil (n : Nat) : natDigits n ≠ [] :=
  (natDigitsAux_spec (n + 1) n (by omega)).1

theorem natDigits_all_digits (n : Nat) : ∀ c ∈ natDigits n, c.isDigit = true :=
  (natDigitsAux_spec (n + 1) n (by omega)).2.1

theorem digitsVal_natDigits (n : Nat) : digitsVal (natDigits n) = n :=
  (natDigitsAux_spec (n + 1) n (by omega)).2.2

theorem isEmpty_eq_false_of_ne_nil {α : Type} {l : List α} (h : l ≠ []) :
    l.isEmpty = false := by
  cases l with
  | nil => exact absurd rfl h
  | cons a as => rfl

theorem digitRunsAux_all_digits (ds : List Char) (hd : ∀ c ∈ ds, c.isDigit = true) :
    ∀ l acc, digitRunsAux (ds ++ l) acc = digitRunsAux l (ds.reverse ++ acc) := by
  induction ds with
  | nil => intro l acc; simp
  | cons d ds ih =>
    intro l acc
    have hdd : d.isDigit = true := hd d (List.mem_cons_self d ds)
    have hds : ∀ c ∈ ds, c.isDigit = true := fun c hc => hd c (List.mem_cons_of_mem d hc)
    simp only [List.cons_append, digitRunsAux, if_pos hdd, List.append_eq]
    rw [ih hds l (d :: acc)]
    simp [List.append_assoc]

theorem digitRunsAux_nondigit (c : Char) (hc : c.isDigit = false) (l acc : List Char)
    (ha : acc ≠ []) :
    digitRunsAux (c :: l) acc = acc.reverse :: digitRunsAux l [] := by
  simp [digitRunsAux, hc, isEmpty_eq_false_of_ne_nil ha]

theorem digitRunsAux_nil_acc (acc : List Char) (ha : acc ≠ []) :
    digitRunsAux [] acc = [acc.reverse] := by
  simp [digitRunsAux, isEmpty_eq_false_of_ne_nil ha]

theorem digitRuns_run_dot (ds rest : List Char) (hne : ds ≠ [])
    (hd : ∀ c ∈ ds, c.isDigit = true) :
    digitRunsAux (ds ++ '.' :: rest) [] = ds :: digitRunsAux rest [] := by
  rw [digitRunsAux_all_digits ds hd ('.' :: rest) []]
  rw [List.append_nil]
  rw [digitRunsAux_nondigit '.' (by decide) rest ds.reverse (by simpa using hne)]
  rw [List.reverse_reverse]

theorem digitRuns_run_end (ds : List Char) (hne : ds ≠ [])
    (hd : ∀ c ∈ ds, c.isDigit = true) :
    digitRunsAux ds [] = [ds] := by
  have h := digitRunsAux_all_digits ds hd [] []
  rw [List.append_nil] at h
  rw [h, List.append_nil, digitRunsAux_nil_acc ds.reverse (by simpa using hne),
    List.reverse_reverse]

theorem digitRunsAux_length_le : ∀ l acc : List Char,
    (digitRunsAux l acc).length ≤ l.length + 1 ∧
    (acc = [] → (digitRunsAux l acc).length ≤ l.length) := by
  intro l
  induction l with
  | nil =>
    intro acc
    cases acc with
    | nil => simp [digitRunsAux]
    | cons a as => simp [digitRunsAux]
  | cons c cs ih =>
    intro acc
    by_cases hc : c.isDigit = true
    · have h := (ih (c :: acc)).1
      simp only [digitRunsAux, if_pos hc, List.length_cons]
      exact ⟨by omega, fun _ => by omega⟩
    · cases acc with
      | nil =>
        have h := (ih []).2 rfl
        simp only [digitRunsAux, if_neg hc, List.isEmpty_nil, if_true, List.length_cons,
          if_pos trivial]
        exact ⟨by omega, fun _ => by omega⟩
      | cons a as =>
        have h := (ih []).2 rfl
        have hrw : digitRunsAux (c :: cs) (a :: as) =
            (a :: as).reverse :: digitRunsAux cs [] :=
          digitRunsAux_nondigit c (by simpa using hc) cs (a :: as) (by simp)
        rw [hrw]
        simp only [List.length_cons]
        exact ⟨by omega, fun hh => by cases hh⟩

theorem digitRuns_length_le (l : List Char) : (digitRuns l).length ≤ l.length :=
  (digitRunsAux_length_le l []).2 rfl

/-- Claim C2: for every well-formed three-part dotted version string `s`,
`compose_version_number (split_version_number s) = s`. -/
theorem compose_split_roundtrip (s : String) (h : wellFormedVersion s) :
    compose_version_number (some (split_version_number s)) = s := by
  obtain ⟨a, b, c, rfl⟩ := h
  have hdata : (pyStr a ++ "." ++ pyStr b ++ "." ++ pyStr c).data
      = natDigits a ++ '.' :: (natDigits b ++ '.' :: natDigits c) := by
    show (((natDigits a ++ ['.']) ++ natDigits b) ++ ['.']) ++ natDigits c
        = natDigits a ++ '.' :: (natDigits b ++ '.' :: natDigits c)
    simp [List.append_assoc]
  have hruns : digitRuns (pyStr a ++ "." ++ pyStr b ++ "." ++ pyStr c).data
      = [natDigits a, natDigits b, natDigits c] := by
    rw [hdata]
    unfold digitRuns
    rw [digitRuns_run_dot _ _ (natDigits_ne_nil a) (natDigits_all_digits a),
        digitRuns_run_dot _ _ (natDigits_ne_nil b) (natDigits_all_digits b),
        digitRuns_run_end _ (natDigits_ne_nil c) (natDigits_all_digits c)]
  have hsplit : split_version_number (pyStr a ++ "." ++ pyStr b ++ "." ++ pyStr c)
      = [a, b, c] := by
    unfold split_version_number
    rw [hruns]
    simp [digitsVal_natDigits]
  rw [hsplit]
  rfl

/-- Witness for C2 at the concrete version string `"3.3.0"`. -/
theorem compose_split_roundtrip_witness :
    compose_version_number (some (split_version_number "3.3.0")) = "3.3.0" :=
  compose_split_roundtrip "3.3.0" ⟨3, 3, 0, by decide⟩

/-- Claim C6: `split_version_number` returns the empty list whenever the
number of maximal digit runs is not exactly three, and the runs as integers
when it is exactly three. -/
theorem split_version_number_spec (s : String) :
    ((digitRuns s.data).length ≠ 3 → split_version_number s = [])
  ∧ ((digitRuns s.data).length = 3 →
      split_version_number s = (digitRuns s.data).map digitsVal) := by
  constructor
  · intro h; simp [split_version_number, h]
  · intro h; simp [split_version_number, h]

/-- Witness for C6 at `"1.2"` (two runs) and `"1.2.3"` (three runs). -/
theorem split_version_number_spec_witness :
    split_version_number "1.2" = [] ∧ split_version_number "1.2.3" = [1, 2, 3] :=
  ⟨(split_version_number_spec "1.2").1 (by decide),
   by rw [(split_version_number_spec "1.2.3").2 (by decide)]; decide⟩

/-- Claim C5: `is_proper_name` is false exactly on the empty string and on
strings containing a forbidden character, true on every other string, and a
`TypeError` on every non-string argument. -/
theorem is_proper_name_spec :
    (∀ s : String,
       (is_proper_name (PyVal.vstr s) = Except.ok false ↔
         (s = "" ∨ ∃ c ∈ forbidden_chars, s.data.contains c = true))
     ∧ (is_proper_name (PyVal.vstr s) = Except.ok true ↔
         (s ≠ "" ∧ ∀ c ∈ forbidden_chars, s.data.contains c = false)))
  ∧ (∀ v : PyVal, (∀ s, v ≠ PyVal.vstr s) →
      is_proper_name v = Except.error (PyErr.typeError "Name is not string")) := by
  constructor
  · intro s
    by_cases he : s = ""
    · subst he
      constructor
      · simp [is_proper_name]
      · simp [is_proper_name]
    · by_cases hf : forbidden_chars.any (fun c => s.data.contains c) = true
      · have hex : ∃ c ∈ forbidden_chars, s.data.contains c = true := by
          simpa [List.any_eq_true] using hf
        constructor
        · simp [is_proper_name, he, hf, hex]
        · simp only [is_proper_name, if_neg he, hf, if_true]
          constructor
          · intro hcon; cases hcon
          · rintro ⟨-, hall⟩
            obtain ⟨c, hcmem, hccon⟩ := hex
            rw [hall c hcmem] at hccon
            cases hccon
      · have hall : ∀ c ∈ forbidden_chars, s.data.contains c = false := by
          intro c hc
          by_contra hcc
          exact hf (List.any_eq_true.mpr ⟨c, hc, by simpa using hcc⟩)
        constructor
        · simp only [is_proper_name, if_neg he, hf, if_false]
          constructor
          · intro hcon; cases hcon
          · rintro (h1 | ⟨c, hcmem, hccon⟩)
            · exact absurd h1 he
            · rw [hall c hcmem] at hccon; cases hccon
        · simp only [is_proper_name, if_neg he, hf, if_false]
          exact iff_of_true rfl ⟨he, hall⟩
  · intro v hv
    cases v with
    | vstr s => exact absurd rfl (hv s)
    | vnone => rfl
    | vother => rfl

/-- Witness for C5: a string with a space is rejected, `None` is a `TypeError`. -/
theorem is_proper_name_spec_witness :
    is_proper_name (PyVal.vstr "a b") = Except.ok false ∧
    is_proper_name PyVal.vnone = Except.error (PyErr.typeError "Name is not string") :=
  ⟨((is_proper_name_spec.1 "a b").1).mpr (Or.inr ⟨' ', by decide, by decide⟩),
   is_proper_name_spec.2 PyVal.vnone (fun _ hh => nomatch hh)⟩

/-- Claim C7: with both names set, `get_build_command` is exactly the docker
invocation `docker build --no-cache --pull -t <image> -f <recipe> .`. -/
theorem get_build_command_format (d : DockerClass)
    (h1 : d.recipe_name ≠ "") (h2 : d.image_name ≠ "") :
    d.get_build_command = Except.ok ("docker build --no-cache --pull -t " ++
      d.image_name ++ " -f " ++ d.recipe_name ++ " .") := by
  unfold DockerClass.get_build_command
  rw [if_neg h1, if_neg h2]

/-- Witness for C7 at a concrete record. -/
theorem get_build_command_format_witness :
    (DockerClass.mk "Dockerfile-x" "img-x" "").get_build_command =
      Except.ok ("docker build --no-cache --pull -t " ++ "img-x" ++ " -f " ++
        "Dockerfile-x" ++ " .") :=
  get_build_command_format (DockerClass.mk "Dockerfile-x" "img-x" "")
    (by decide) (by decide)

/-- Claim C8: `get_build_command` raises a `ValueError` whenever the recipe
file name or the image name is unset, and `write_recipe` raises a
`ValueError` whenever the file name or the recipe text is unset. -/
theorem docker_missing_fields_error (d : DockerClass) :
    ((d.recipe_name = "" ∨ d.image_name = "") → raisesValueError d.get_build_command)
  ∧ ((d.recipe_name = "" ∨ d.recipe = "") → raisesValueError d.write_recipe) := by
  constructor
  · intro h
    unfold DockerClass.get_build_command
    by_cases h1 : d.recipe_name = ""
    · rw [if_pos h1]; exact ⟨_, rfl⟩
    · have h2 : d.image_name = "" := h.resolve_left h1
      rw [if_neg h1, if_pos h2]; exact ⟨_, rfl⟩
  · intro h
    unfold DockerClass.write_recipe
    by_cases h1 : d.recipe_name = ""
    · rw [if_pos h1]; exact ⟨_, rfl⟩
    · have h2 : d.recipe = "" := h.resolve_left h1
      rw [if_neg h1, if_pos h2]; exact ⟨_, rfl⟩

/-- Witness for C8 at the freshly constructed (all-empty) record. -/
theorem docker_missing_fields_error_witness :
    raisesValueError (DockerClass.mk "" "" "").get_build_command ∧
    raisesValueError (DockerClass.mk "" "" "").write_recipe :=
  ⟨(docker_missing_fields_error (DockerClass.mk "" "" "")).1 (Or.inl rfl),
   (docker_missing_fields_error (DockerClass.mk "" "" "")).2 (Or.inl rfl)⟩

/-- Claim C3: `get_mpi_type_and_version` follows the length-bucket rules:
below 5 raises; exactly 5 accepts only `"mpich"`; 6 always raises; exactly 7
accepts only `"openmpi"`; above 7 accepts exactly the strings with a family
prefix whose version suffix yields three integers under the codec, raising
for any other prefix or suffix. -/
theorem get_mpi_type_and_version_buckets (s : String) :
    (s.length < 5 → raisesValueError (get_mpi_type_and_version s))
  ∧ (s.length = 5 →
      (s = "mpich" → get_mpi_type_and_version s = Except.ok ("mpich", none))
    ∧ (s ≠ "mpich" → raisesValueError (get_mpi_type_and_version s)))
  ∧ (s.length = 6 → raisesValueError (get_mpi_type_and_version s))
  ∧ (s.length = 7 →
      (s = "openmpi" → get_mpi_type_and_version s = Except.ok ("openmpi", none))
    ∧ (s ≠ "openmpi" → raisesValueError (get_mpi_type_and_version s)))
  ∧ (7 < s.length →
      (s.data.take 5 = "mpich".data →
        ((split_version_number (String.mk (s.data.drop 6))).length = 3 →
            get_mpi_type_and_version s = Except.ok ("mpich",
              some (split_version_number (String.mk (s.data.drop 6)))))
      ∧ ((split_version_number (String.mk (s.data.drop 6))).length ≠ 3 →
            raisesValueError (get_mpi_type_and_version s)))
    ∧ (s.data.take 5 ≠ "mpich".data → s.data.take 7 = "openmpi".data →
        ((split_version_number (String.mk (s.data.drop 8))).length = 3 →
            get_mpi_type_and_version s = Except.ok ("openmpi",
              some (split_version_number (String.mk (s.data.drop 8)))))
      ∧ ((split_version_number (String.mk (s.data.drop 8))).length ≠ 3 →
            raisesValueError (get_mpi_type_and_version s)))
    ∧ (s.data.take 5 ≠ "mpich".data → s.data.take 7 ≠ "openmpi".data →
          raisesValueError (get_mpi_type_and_version s))) := by
  refine ⟨?_, ?_, ?_, ?_, ?_⟩
  · intro h
    refine ⟨"MPI name is too short:", ?_⟩
    unfold get_mpi_type_and_version
    rw [if_pos h]
  · intro h
    constructor
    · intro he
      unfold get_mpi_type_and_version
      rw [if_neg (by omega), if_pos h, if_pos he]
    · intro he
      refine ⟨"Expecting mpich:", ?_⟩
      unfold get_mpi_type_and_version
      rw [if_neg (by omega), if_pos h, if_neg he]
  · intro h
    refine ⟨"Illegal MPI name:", ?_⟩
    unfold get_mpi_type_and_version
    rw [if_neg (by omega), if_neg (by omega), if_pos h]
  · intro h
    constructor
    · intro he
      unfold get_mpi_type_and_version
      rw [if_neg (by omega), if_neg (by omega), if_neg (by omega), if_pos h, if_pos he]
    · intro he
      refine ⟨"Expecting openmpi:", ?_⟩
      unfold get_mpi_type_and_version
      rw [if_neg (by omega), if_neg (by omega), if_neg (by omega), if_pos h, if_neg he]
  · intro h
    refine ⟨?_, ?_, ?_⟩
    · intro hp
      constructor
      · intro h3
        unfold get_mpi_type_and_version
        rw [if_neg (by omega), if_neg (by omega), if_neg (by omega), if_neg (by omega),
          if_pos hp]
        simp only [h3, if_true, if_pos rfl]
      · intro h3
        refine ⟨"Illegal mpich version:", ?_⟩
        unfold get_mpi_type_and_version
        rw [if_neg (by omega), if_neg (by omega), if_neg (by omega), if_neg (by omega),
          if_pos hp]
        simp only [if_neg h3]
    · intro hp hq
      constructor
      · intro h3
        unfold get_mpi_type_and_version
        rw [if_neg (by omega), if_neg (by omega), if_neg (by omega), if_neg (by omega),
          if_neg hp, if_pos hq]
        simp only [h3, if_true, if_pos rfl]
      · intro h3
        refine ⟨"Illegal openmpi version:", ?_⟩
        unfold get_mpi_type_and_version
        rw [if_neg (by omega), if_neg (by omega), if_neg (by omega), if_neg (by omega),
          if_neg hp, if_pos hq]
        simp only [if_neg h3]
    · intro hp hq
      refine ⟨"Illegal MPI name:", ?_⟩
      unfold get_mpi_type_and_version
      rw [if_neg (by omega), if_neg (by omega), if_neg (by omega), if_neg (by omega),
        if_neg hp, if_neg hq]

/-- Witness for C3: a versioned mpich name parses, a too-short name raises. -/
theorem get_mpi_type_and_version_buckets_witness :
    get_mpi_type_and_version "mpich-3.3.0" = Except.ok ("mpich",
      some (split_version_number (String.mk ("mpich-3.3.0".data.drop 6)))) ∧
    raisesValueError (get_mpi_type_and_version "ab") :=
  ⟨(((get_mpi_type_and_version_buckets "mpich-3.3.0").2.2.2.2 (by decide)).1
      (by decide)).1 (by decide),
   (get_mpi_type_and_version_buckets "ab").1 (by decide)⟩

/-- Claim C9: for long inputs the parser never inspects the separator
character: any string `"mpich" ++ c ++ v` whose portion `v` (from index 6 on)
has exactly three digit runs parses as mpich with that version, for every
character `c` at index 5, and symmetrically `"openmpi" ++ c ++ w` with `c`
at index 7. -/
theorem parser_ignores_separator (c : Char) (v w : List Char)
    (hv : (digitRuns v).length = 3) (hw : (digitRuns w).length = 3) :
    get_mpi_type_and_version (String.mk ("mpich".data ++ c :: v))
      = Except.ok ("mpich", some ((digitRuns v).map digitsVal))
  ∧ get_mpi_type_and_version (String.mk ("openmpi".data ++ c :: w))
      = Except.ok ("openmpi", some ((digitRuns w).map digitsVal)) := by
  have hv3 : 3 ≤ v.length := by
    have := digitRuns_length_le v
    omega
  have hw3 : 3 ≤ w.length := by
    have := digitRuns_length_le w
    omega
  constructor
  · have hlen : (String.mk ("mpich".data ++ c :: v)).length = 6 + v.length := by
      show ("mpich".data ++ c :: v).length = 6 + v.length
      simp [List.length_append]
      omega
    have hsplit : split_version_number (String.mk v) = (digitRuns v).map digitsVal := by
      simp [split_version_number, hv]
    unfold get_mpi_type_and_version
    rw [hlen, if_neg (by omega), if_neg (by omega), if_neg (by omega), if_neg (by omega)]
    have htake : (String.mk ("mpich".data ++ c :: v)).data.take 5 = "mpich".data := rfl
    have hdrop : (String.mk ("mpich".data ++ c :: v)).data.drop 6 = v := rfl
    rw [if_pos htake, hdrop, hsplit]
    simp [hv]
  · have hlen : (String.mk ("openmpi".data ++ c :: w)).length = 8 + w.length := by
      show ("openmpi".data ++ c :: w).length = 8 + w.length
      simp [List.length_append]
      omega
    have hsplit : split_version_number (String.mk w) = (digitRuns w).map digitsVal := by
      simp [split_version_number, hw]
    unfold get_mpi_type_and_version
    rw [hlen, if_neg (by omega), if_neg (by omega), if_neg (by omega), if_neg (by omega)]
    have htake5 : (String.mk ("openmpi".data ++ c :: w)).data.take 5 = "openm".data := rfl
    have htake7 : (String.mk ("openmpi".data ++ c :: w)).data.take 7 = "openmpi".data := rfl
    have hdrop : (String.mk ("openmpi".data ++ c :: w)).data.drop 8 = w := rfl
    rw [htake5]
    rw [if_neg (by decide), if_pos htake7, hdrop, hsplit]
    simp [hw]

/-- Witness for C9: `"mpichX1.2.3"` and `"openmpiX4.0.1"` both parse although
the separator is not `-`. -/
theorem parser_ignores_separator_witness :
    get_mpi_type_and_version (String.mk ("mpich".data ++ 'X' :: "1.2.3".data))
      = Except.ok ("mpich", some ((digitRuns "1.2.3".data).map digitsVal)) ∧
    get_mpi_type_and_version (String.mk ("openmpi".data ++ 'X' :: "4.0.1".data))
      = Except.ok ("openmpi", some ((digitRuns "4.0.1".data).map digitsVal)) :=
  parser_ignores_separator 'X' "1.2.3".data "4.0.1".data (by decide) (by decide)

/-- The release-tag workaround checkout step marker. -/
def workaroundPat : List Char := ("checkout -b release/").data

/-- The extra checkout/rename pair emitted for release tag `1.2.3`:
`checkout -b release/1.2.3` immediately followed by `checkout -b 1.2.3`. -/
def releasePairPat : List Char :=
  ("RUN ./git-do checkout -b release/1.2.3\nRUN ./git-do checkout -b 1.2.3\n").data

/-- The base images actually passed to `make_big_yandasoft_recipe` by
`make_yandasoft`: `csirocass/yandabase:<mpi>` for the configured generic MPI
targets, and `csirocass/yandabase:galaxy` for the specific machine. -/
def yandabaseImages : List String :=
  ["csirocass/yandabase:mpich", "csirocass/yandabase:openmpi4",
   "csirocass/yandabase:openmpi3", "csirocass/yandabase:openmpi2",
   "csirocass/yandabase:openmpi2.0", "csirocass/yandabase:galaxy"]

/-- Claim C4: for every base image the program uses and both image flavors,
the `develop` and `master` recipes contain no occurrence of the workaround
checkout step, while the `1.2.3` release recipe contains exactly one
occurrence of the adjacent checkout/rename pair, which occurs zero times in
the `develop` and `master` recipes. -/
theorem big_recipe_workaround_occurrences :
    ∀ b ∈ yandabaseImages, ∀ img ∈ (["yandasoft", "askapsoft"] : List String),
      Except.map (fun r => countOccs workaroundPat r.data)
        (make_big_yandasoft_recipe b img "develop") = Except.ok 0
    ∧ Except.map (fun r => countOccs workaroundPat r.data)
        (make_big_yandasoft_recipe b img "master") = Except.ok 0
    ∧ Except.map (fun r => countOccs releasePairPat r.data)
        (make_big_yandasoft_recipe b img "1.2.3") = Except.ok 1
    ∧ Except.map (fun r => countOccs releasePairPat r.data)
        (make_big_yandasoft_recipe b img "develop") = Except.ok 0
    ∧ Except.map (fun r => countOccs releasePairPat r.data)
        (make_big_yandasoft_recipe b img "master") = Except.ok 0 := by
  decide

/-- Witness for C4 at the mpich base image and the yandasoft flavor. -/
theorem big_recipe_workaround_occurrences_witness :
    Except.map (fun r => countOccs workaroundPat r.data)
      (make_big_yandasoft_recipe "csirocass/yandabase:mpich" "yandasoft" "develop")
      = Except.ok 0
  ∧ Except.map (fun r => countOccs workaroundPat r.data)
      (make_big_yandasoft_recipe "csirocass/yandabase:mpich" "yandasoft" "master")
      = Except.ok 0
  ∧ Except.map (fun r => countOccs releasePairPat r.data)
      (make_big_yandasoft_recipe "csirocass/yandabase:mpich" "yandasoft" "1.2.3")
      = Except.ok 1
  ∧ Except.map (fun r => countOccs releasePairPat r.data)
      (make_big_yandasoft_recipe "csirocass/yandabase:mpich" "yandasoft" "develop")
      = Except.ok 0
  ∧ Except.map (fun r => countOccs releasePairPat r.data)
      (make_big_yandasoft_recipe "csirocass/yandabase:mpich" "yandasoft" "master")
      = Except.ok 0 :=
  big_recipe_workaround_occurrences "csirocass/yandabase:mpich" (by decide)
    "yandasoft" (by decide)

/-- Counterexample to claim C1 as stated: for the library spec `"openmpi"`
(family `openmpi`, absent version) the openmpi branch of `make_batch_file`
IS entered and the batch MPI content IS set — the produced file contains the
module/image lines built from the empty version string — and the run does
not end in the unassigned-variable error that "never entered" would cause. -/
theorem make_batch_file_openmpi_enters_branch :
    make_batch_file "generic" "openmpi" =
      Except.ok ("sample-generic-openmpi.sbatch",
        batch_common_part ++
        "module load openmpi/-ofed45-gcc\n\nmpirun -n 5 -oversubscribe singularity exec yandasoft-_latest.sif cimager -c dirty.in > dirty_$\x7bSLURM_JOB_ID\x7d.log\n")
  ∧ make_batch_file "generic" "openmpi" ≠
      Except.error (PyErr.nameError "batch_mpi_part") := by
  decide

/-- Claim C1 amended: when the parsed family is `openmpi` with an absent
version, `compose_version_number` yields the empty string (not `None`), so
the guard `mpi_ver != None` is true, the branch IS entered, and the batch
content is set using an empty version component in the module-load line and
in the image name (`yandasoft-_latest.sif`). -/
theorem make_batch_file_openmpi_absent_version (machine mpi : String)
    (h : get_mpi_type_and_version mpi = Except.ok ("openmpi", none)) :
    make_batch_file machine mpi =
      Except.ok ("sample-" ++ machine ++ "-" ++ mpi ++ ".sbatch",
        batch_common_part ++
        "module load openmpi/-ofed45-gcc\n\nmpirun -n 5 -oversubscribe singularity exec yandasoft-_latest.sif cimager -c dirty.in > dirty_$\x7bSLURM_JOB_ID\x7d.log\n") := by
  unfold make_batch_file
  rw [h]
  rfl

/-- Witness for the amended C1 at machine `"galaxy"`, spec `"openmpi"`. -/
theorem make_batch_file_openmpi_absent_version_witness :
    make_batch_file "galaxy" "openmpi" =
      Except.ok ("sample-" ++ "galaxy" ++ "-" ++ "openmpi" ++ ".sbatch",
        batch_common_part ++
        "module load openmpi/-ofed45-gcc\n\nmpirun -n 5 -oversubscribe singularity exec yandasoft-_latest.sif cimager -c dirty.in > dirty_$\x7bSLURM_JOB_ID\x7d.log\n") :=
  make_batch_file_openmpi_absent_version "galaxy" "openmpi" (by decide)

/-- Counterexample to claim C10 as stated: `set_recipe` called with a string
containing the forbidden character `' '` does NOT raise — it succeeds and
updates the recipe field. -/
theorem set_recipe_accepts_forbidden_chars :
    ' ' ∈ forbidden_chars
  ∧ (" " : String).data.contains ' ' = true
  ∧ (DockerClass.mk "" "" "").set_recipe (PyVal.vstr " ")
      = (Except.ok (), DockerClass.mk "" "" " ") := by
  decide

/-- Claim C10 amended: `set_recipe_name` and `set_image_name` raise on a
non-string, empty, or forbidden-character argument; `set_recipe` raises on a
non-string or empty argument only; and whenever any of the three setters
raises, every field of the record is left unchanged. -/
theorem docker_setters_atomicity (d : DockerClass) (v : PyVal) :
    (((d.set_recipe_name v).1.isOk = false → (d.set_recipe_name v).2 = d)
   ∧ ((d.set_image_name v).1.isOk = false → (d.set_image_name v).2 = d)
   ∧ ((d.set_recipe v).1.isOk = false → (d.set_recipe v).2 = d))
  ∧ (∀ s, v = PyVal.vstr s →
       (s = "" ∨ ∃ c ∈ forbidden_chars, s.data.contains c = true) →
       (d.set_recipe_name v).1.isOk = false ∧ (d.set_image_name v).1.isOk = false)
  ∧ ((∀ s, v ≠ PyVal.vstr s) →
       (d.set_recipe_name v).1.isOk = false ∧ (d.set_image_name v).1.isOk = false ∧
       (d.set_recipe v).1.isOk = false)
  ∧ (v = PyVal.vstr "" → (d.set_recipe v).1.isOk = false) := by
  refine ⟨⟨?_, ?_, ?_⟩, ?_, ?_, ?_⟩
  · cases v with
    | vstr s =>
      by_cases hc : s = "" ∨ (forbidden_chars.any fun c => s.data.contains c) = true
      · intro _
        have h1 : d.set_recipe_name (PyVal.vstr s)
            = (Except.error (PyErr.valueError "Illegal recipe_name:"), d) := by
          unfold DockerClass.set_recipe_name
          exact if_pos hc
        rw [h1]
      · intro habs
        have h1 : d.set_recipe_name (PyVal.vstr s)
            = (Except.ok (), { d with recipe_name := s }) := by
          unfold DockerClass.set_recipe_name
          exact if_neg hc
        rw [h1] at habs
        exact Bool.noConfusion habs
    | vnone => intro _; rfl
    | vother => intro _; rfl
  · cases v with
    | vstr s =>
      by_cases hc : s = "" ∨ (forbidden_chars.any fun c => s.data.contains c) = true
      · intro _
        have h1 : d.set_image_name (PyVal.vstr s)
            = (Except.error (PyErr.valueError "Illegal image_name:"), d) := by
          unfold DockerClass.set_image_name
          exact if_pos hc
        rw [h1]
      · intro habs
        have h1 : d.set_image_name (PyVal.vstr s)
            = (Except.ok (), { d with image_name := s }) := by
          unfold DockerClass.set_image_name
          exact if_neg hc
        rw [h1] at habs
        exact Bool.noConfusion habs
    | vnone => intro _; rfl
    | vother => intro _; rfl
  · cases v with
    | vstr s =>
      by_cases hc : s = ""
      · intro _
        have h1 : d.set_recipe (PyVal.vstr s)
            = (Except.error (PyErr.valueError "Recipe is empty string"), d) := by
          unfold DockerClass.set_recipe
          exact if_pos hc
        rw [h1]
      · intro habs
        have h1 : d.set_recipe (PyVal.vstr s)
            = (Except.ok (), { d with recipe := s }) := by
          unfold DockerClass.set_recipe
          exact if_neg hc
        rw [h1] at habs
        exact Bool.noConfusion habs
    | vnone => intro _; rfl
    | vother => intro _; rfl
  · rintro s rfl hbad
    have hcond : s = "" ∨ (forbidden_chars.any fun c => s.data.contains c) = true := by
      rcases hbad with h1 | ⟨c, hcmem, hccon⟩
      · exact Or.inl h1
      · exact Or.inr (List.any_eq_true.mpr ⟨c, hcmem, hccon⟩)
    constructor
    · have h1 : d.set_recipe_name (PyVal.vstr s)
          = (Except.error (PyErr.valueError "Illegal recipe_name:"), d) := by
        unfold DockerClass.set_recipe_name
        exact if_pos hcond
      rw [h1]
      rfl
    · have h1 : d.set_image_name (PyVal.vstr s)
          = (Except.error (PyErr.valueError "Illegal image_name:"), d) := by
        unfold DockerClass.set_image_name
        exact if_pos hcond
      rw [h1]
      rfl
  · intro hv
    cases v with
    | vstr s => exact absurd rfl (hv s)
    | vnone => exact ⟨rfl, rfl, rfl⟩
    | vother => exact ⟨rfl, rfl, rfl⟩
  · rintro rfl
    rfl

/-- Witness for the amended C10: a non-string argument makes `set_recipe_name`
raise and leaves the record unchanged. -/
theorem docker_setters_atomicity_witness :
    ((DockerClass.mk "a" "b" "c").set_recipe_name PyVal.vnone).2
        = DockerClass.mk "a" "b" "c"
  ∧ ((DockerClass.mk "a" "b" "c").set_recipe_name PyVal.vnone).1.isOk = false :=
  have h := docker_setters_atomicity (DockerClass.mk "a" "b" "c") PyVal.vnone
  ⟨h.1.1 (by decide), (h.2.2.1 (fun _ hh => nomatch hh)).1⟩
